import Mathlib

/-!
Verification of the toga backend-resolution and geolocation event-bridge
logic against a shallow Lean embedding of the source.

Embedded source files:
* `cocoa/src/toga_cocoa/hardware/geolocation.py` — the cocoa location
  backend (delegate callbacks, permission checks, pending-request queues).
* `core/src/toga/platform.py` — backend discovery and selection.
* `core/src/toga/widgets/{slider,detailedlist,splitcontainer,divider}.py` —
  representative widgets of the interface/impl pattern.

Conventions of the embedding:
* Python futures are identified by natural-number ids; settling a future is
  recorded as an `Event` in an emitted event trace rather than mutating a
  shared cell, so "every queued cell is settled once with value v" becomes a
  statement about the trace.
* Calls into the native `CLLocationManager` are likewise recorded as events
  (`nativeRequestLocation`, …), so "no native call is attempted" is the
  absence of such events.
* Python exceptions are modelled with `Except`: a raised exception carries
  the message and, by construction, no state change and no events.
* Numeric fields coming from Core Location (coordinates, accuracies) are
  modelled as rationals; the code only copies them and compares against 0.
-/

set_option autoImplicit false

/- Core Location authorization status constants, as the integer values
used by `toga_cocoa.libs.CLAuthorizationStatus`. -/
namespace CLAuthorizationStatus

def NotDetermined : Int := 0

def Restricted : Int := 1

def Denied : Int := 2

def AuthorizedAlways : Int := 3

def AuthorizedWhenInUse : Int := 4

end CLAuthorizationStatus

/-- Latitude/longitude pair, as `toga.LatLng`. -/
structure LatLng where
  lat : Rat
  lng : Rat
  deriving DecidableEq, Repr

/-- Coordinate of a native `CLLocation`. -/
structure CLLocationCoordinate2D where
  latitude : Rat
  longitude : Rat
  deriving DecidableEq, Repr

/-- Native `CLLocation` value as read by the cocoa backend: a coordinate,
a vertical accuracy and an ellipsoidal altitude. -/
structure CLLocation where
  coordinate : CLLocationCoordinate2D
  verticalAccuracy : Rat
  ellipsoidalAltitude : Rat
  deriving DecidableEq, Repr

/-- Observable effects of a geolocation operation: settling a result cell
(`setResult`/`setException` on an `asyncio` future, identified by id),
invoking the interface change listener (`interface.on_change`), or a call
into the native `CLLocationManager`. -/
inductive Event where
  | setResult (future : Nat) (value : LatLng)
  | setException (future : Nat) (msg : String)
  | onChange (location : LatLng) (altitude : Option Rat)
  | nativeRequestLocation
  | nativeRequestAlwaysAuthorization
  | nativeStartUpdatingLocation
  | nativeStopUpdatingLocation
  deriving DecidableEq, Repr

/-- State of one cocoa `Geolocation` impl together with the native manager
state it reads: the native authorization status, the native cached location
(`CLLocationManager.location`, possibly absent), and the two queues of
pending future ids. -/
structure GeolocationState where
  authorizationStatus : Int
  nativeLocation : Option CLLocation
  locationRequests : List Nat
  permissionRequests : List Nat
  deriving DecidableEq, Repr

/-- One drain loop `while reqs: future = reqs.pop(); settle(future)`.
Python `list.pop()` removes the LAST element, so the loop settles the queue
back to front and leaves it empty; the function returns the settle events
in the order they are performed. -/
def drainPop (settle : Nat → Event) : List Nat → List Event
  | [] => []
  | a :: rest =>
    settle ((a :: rest).getLast (List.cons_ne_nil a rest)) ::
      drainPop settle (a :: rest).dropLast
termination_by l => l.length
decreasing_by simp [List.length_dropLast]

namespace Geolocation

/-- `Geolocation.has_permission(allow_unknown=...)`: membership of the
native authorization status in the set of accepted statuses. -/
def has_permission (st : GeolocationState) (allow_unknown : Bool) : Bool :=
  let valid_values : List Int :=
    if allow_unknown then
      [CLAuthorizationStatus.AuthorizedAlways,
       CLAuthorizationStatus.AuthorizedWhenInUse,
       CLAuthorizationStatus.NotDetermined]
    else
      [CLAuthorizationStatus.AuthorizedAlways,
       CLAuthorizationStatus.AuthorizedWhenInUse]
  valid_values.contains st.authorizationStatus

/-- `Geolocation._location_change(location)`: build the `LatLng`, decide the
altitude from the vertical accuracy, drain every pending location request
with the same `LatLng`, then notify the change listener once. -/
def location_change (st : GeolocationState) (location : CLLocation) :
    GeolocationState × List Event :=
  let latlng : LatLng := ⟨location.coordinate.latitude, location.coordinate.longitude⟩
  let altitude : Option Rat :=
    if location.verticalAccuracy > 0 then some location.ellipsoidalAltitude else none
  ({ st with locationRequests := [] },
   drainPop (fun future => Event.setResult future latlng) st.locationRequests
     ++ [Event.onChange latlng altitude])

/-- `TogaLocationDelegate.locationManager_didUpdateLocations_`: forwards
only `locations[-1]` to `_location_change`; `none` models the `IndexError`
on an empty batch, which the native API never delivers. -/
def locationManager_didUpdateLocations (st : GeolocationState)
    (locations : List CLLocation) : Option (GeolocationState × List Event) :=
  locations.getLast?.map (fun location => location_change st location)

/-- `Geolocation._location_error(error)`: drain every pending location
request with a `RuntimeError` describing the native error; the change
listener is not involved. -/
def location_error (st : GeolocationState) (error : String) :
    GeolocationState × List Event :=
  ({ st with locationRequests := [] },
   drainPop
     (fun future =>
       Event.setException future ("Unable to obtain a location (" ++ error ++ ")"))
     st.locationRequests)

/-- `Geolocation.request_permission(future)`: enqueue and ask the native
manager for always-authorization. -/
def request_permission (st : GeolocationState) (future : Nat) :
    GeolocationState × List Event :=
  ({ st with permissionRequests := st.permissionRequests ++ [future] },
   [Event.nativeRequestAlwaysAuthorization])

/-- `Geolocation.request_background_permission(future)` (the cocoa impl
method): identical body to `request_permission` — the foreground
precondition is enforced by the core interface, not here. -/
def request_background_permission (st : GeolocationState) (future : Nat) :
    GeolocationState × List Event :=
  ({ st with permissionRequests := st.permissionRequests ++ [future] },
   [Event.nativeRequestAlwaysAuthorization])

/-- `Geolocation.current_location(result)`: permission check (unknown
allowed), then either settle from the native cached location synchronously,
or enqueue and request a one-shot native fetch. -/
def current_location (st : GeolocationState) (result : Nat) :
    Except String (GeolocationState × List Event) :=
  if has_permission st true then
    match st.nativeLocation with
    | none =>
        .ok ({ st with locationRequests := st.locationRequests ++ [result] },
             [Event.nativeRequestLocation])
    | some location =>
        .ok (st,
             [Event.setResult result
               ⟨location.coordinate.latitude, location.coordinate.longitude⟩])
  else
    .error "App does not have permission to use geolocation services"

/-- `Geolocation.start()`: permission check, then start continuous native
updates. -/
def start (st : GeolocationState) : Except String (GeolocationState × List Event) :=
  if has_permission st true then
    .ok (st, [Event.nativeStartUpdatingLocation])
  else
    .error "App does not have permission to use geolocation services"

/-- `Geolocation.stop()`: permission check, then stop continuous native
updates. Note the permission check happens first: without permission this
raises even though nothing was ever started. -/
def stop (st : GeolocationState) : Except String (GeolocationState × List Event) :=
  if has_permission st true then
    .ok (st, [Event.nativeStopUpdatingLocation])
  else
    .error "App does not have permission to use geolocation services"

end Geolocation

namespace Location

/-- Modelled from the spec: the core interface method
`Location.request_background_permission` lives in
`core/src/toga/hardware/location.py`, which is not part of the source
extract (only its cocoa impl and its testbed tests are). Per the spec,
requesting background permission is a precondition failure — raised
synchronously, never queued — unless foreground permission has already been
granted; only with foreground permission granted does it delegate to the
backend impl. -/
def request_background_permission (st : GeolocationState) (future : Nat) :
    Except String (GeolocationState × List Event) :=
  if Geolocation.has_permission st false then
    .ok (Geolocation.request_background_permission st future)
  else
    .error
      "Cannot ask for background location permission before confirming foreground location permission."

end Location

/-- Projection used by the claim statements: the `LatLng` built by
`_location_change` from a native location. -/
def latlngOf (location : CLLocation) : LatLng :=
  ⟨location.coordinate.latitude, location.coordinate.longitude⟩

/-- Projection used by the claim statements: the altitude reported by
`_location_change` (absent unless the vertical accuracy is positive). -/
def altitudeOf (location : CLLocation) : Option Rat :=
  if location.verticalAccuracy > 0 then some location.ellipsoidalAltitude else none

/-- Recognizer for change-listener invocations in an event trace. -/
def isOnChangeEvent : Event → Bool
  | Event.onChange _ _ => true
  | _ => false

theorem drainPop_ne_nil (settle : Nat → Event) (l : List Nat) (h : l ≠ []) :
    drainPop settle l = settle (l.getLast h) :: drainPop settle l.dropLast := by
  cases l with
  | nil => exact absurd rfl h
  | cons a rest => simp [drainPop]

theorem drainPop_eq_reverse_map (settle : Nat → Event) (l : List Nat) :
    drainPop settle l = l.reverse.map settle := by
  induction l using List.reverseRecOn with
  | nil => simp [drainPop]
  | append_singleton xs a ih =>
      rw [drainPop_ne_nil settle (xs ++ [a]) (by simp)]
      simp [ih]

example :
    Geolocation.location_change
      ⟨CLAuthorizationStatus.AuthorizedAlways, none, [7, 8], []⟩
      ⟨⟨37, 42⟩, 1, 5⟩
    = (⟨CLAuthorizationStatus.AuthorizedAlways, none, [], []⟩,
       [Event.setResult 8 ⟨37, 42⟩, Event.setResult 7 ⟨37, 42⟩,
        Event.onChange ⟨37, 42⟩ (some 5)]) := by
  simp [Geolocation.location_change, drainPop_eq_reverse_map]

/-- One discovered backend descriptor (an entry point of group
`toga.backends`): `name` is the platform tag, `value` the module locator. -/
structure EntryPoint where
  name : String
  value : String
  deriving DecidableEq, Repr

/-- Failure modes of `get_platform_factory`. The Python code raises
`RuntimeError` with a message interpolating the lists shown here (built by
`_backends_list`), so each error carries exactly the data the message
names. -/
inductive ResolveError where
  | noBackend
  | noneMatch (installed : List EntryPoint) (platform : Option String)
  | multipleCandidates (candidates : List EntryPoint)
  deriving DecidableEq, Repr

/-- Comparison `backend.name == current_platform` from the filter inside
`get_platform_factory`; `current_platform` may be `None`. -/
def matchesHost (current_platform : Option String) (backend : EntryPoint) : Bool :=
  some backend.name == current_platform

/-- `toga.platform.get_platform_factory`, discovery branch (no
`TOGA_BACKEND` override): count the discovered descriptors, trust a single
install, otherwise filter by the host platform tag and demand a unique
match. The selected descriptor stands for the factory module that the
Python code then imports. -/
def get_platform_factory (current_platform : Option String)
    (toga_backends : List EntryPoint) : Except ResolveError EntryPoint :=
  match toga_backends with
  | [] => .error ResolveError.noBackend
  | [backend] => .ok backend
  | _ =>
    let matching_backends := toga_backends.filter (matchesHost current_platform)
    match matching_backends with
    | [] => .error (ResolveError.noneMatch toga_backends current_platform)
    | [backend] => .ok backend
    | ms => .error (ResolveError.multipleCandidates ms)

example :
    get_platform_factory (some "linux")
      [⟨"linux", "toga_gtk"⟩, ⟨"linux", "toga_qt"⟩]
    = .error (ResolveError.multipleCandidates
        [⟨"linux", "toga_gtk"⟩, ⟨"linux", "toga_qt"⟩]) := by
  rfl

example :
    get_platform_factory (some "linux") [⟨"macOS", "toga_cocoa"⟩]
    = .ok ⟨"macOS", "toga_cocoa"⟩ := by
  rfl

/- Widget models for the interface/impl pattern. Each widget state is the
pair of its interface-level attributes and its native peer (`self._impl`).
Peer method calls that matter to the claims are recorded as peer state;
`enabled` setters additionally report the list of peer calls they make
(the Python bodies are `pass`, so that list is empty). -/

/-- Peer of a `Slider`: holds the state behind `get_value`, `get_range`
and `get_tick_count`. -/
structure SliderImpl where
  value : Rat
  range : Rat × Rat
  tickCount : Option Nat
  deriving DecidableEq, Repr

/-- Interface state of a `toga.Slider`; every data property delegates to
the peer, so the interface carries no cached copy. -/
structure SliderState where
  impl : SliderImpl
  deriving DecidableEq, Repr

namespace Slider

/-- `Slider.value` getter: `return self._impl.get_value()`. -/
def value (w : SliderState) : Rat :=
  w.impl.value

/-- `Slider.range` getter: `return self._impl.get_range()`. -/
def range (w : SliderState) : Rat × Rat :=
  w.impl.range

/-- `Slider.tick_count` getter: `return self._impl.get_tick_count()`. -/
def tick_count (w : SliderState) : Option Nat :=
  w.impl.tickCount

end Slider

/-- Peer of a `DetailedList`: remembers the last source handed over by
`change_source`. -/
structure DetailedListImpl where
  source : Option (List String)
  deriving DecidableEq, Repr

/-- Interface state of a `toga.DetailedList`: `_data` is an attribute of
the interface object itself, assigned by the `data` setter. Rows are
modelled as strings. -/
structure DetailedListState where
  _data : List String
  impl : DetailedListImpl
  deriving DecidableEq, Repr

namespace DetailedList

/-- `DetailedList.data` getter: `return self._data` — the interface
attribute, not a peer read. -/
def data (w : DetailedListState) : List String :=
  w._data

/-- `DetailedList.data` setter: normalise the argument into a source
(`None` becomes an empty list source), store it on the interface, then
notify the peer via `change_source`. -/
def setData (_w : DetailedListState) (d : Option (List String)) : DetailedListState :=
  let newData : List String :=
    match d with
    | none => []
    | some rows => rows
  { _data := newData, impl := { source := some newData } }

/-- `DetailedList.enabled` getter: `return True`. -/
def enabled (_ : DetailedListState) : Bool :=
  true

/-- `DetailedList.enabled` setter: `pass` — no state change, no peer
call. -/
def setEnabled {α : Type} (w : DetailedListState) (_ : α) :
    DetailedListState × List String :=
  (w, [])

end DetailedList

/-- Peer of a `SplitContainer`: remembers the widgets and flex weights
handed over by `set_content`. Widgets are modelled by id. -/
structure SplitContainerImpl where
  content : List (Option Nat)
  flex : List Rat
  deriving DecidableEq, Repr

/-- Interface state of a `toga.SplitContainer`: `_content` is an attribute
of the interface object itself, assigned by the `content` setter. -/
structure SplitContainerState where
  _content : List (Option Nat)
  impl : SplitContainerImpl
  deriving DecidableEq, Repr

/-- One element of the sequence assigned to `SplitContainer.content`:
either a widget (or `None`) alone, or paired with a flex weight. -/
inductive SplitItem where
  | plain (w : Option Nat)
  | weighted (w : Option Nat) (flex : Rat)
  deriving DecidableEq, Repr

namespace SplitContainer

/-- `SplitContainer.content` getter: `return self._content` — the
interface attribute, not a peer read (and hence without the flex
weights). -/
def content (w : SplitContainerState) : List (Option Nat) :=
  w._content

/-- `SplitContainer.content` setter: exactly two items, each optionally
carrying a positive flex weight (default 1); pushes widgets and weights to
the peer, then caches the widgets on the interface. -/
def setContent (_w : SplitContainerState) (items : List SplitItem) :
    Except String SplitContainerState :=
  if items.length ≠ 2 then
    .error "SplitContainer content must be a sequence with exactly 2 elements"
  else if items.any (fun item =>
      match item with
      | SplitItem.weighted _ flex => flex ≤ 0
      | SplitItem.plain _ => false) then
    .error "The flex value for an item in a SplitContainer must be >0"
  else
    let widgets := items.map (fun item =>
      match item with
      | SplitItem.plain widget => widget
      | SplitItem.weighted widget _ => widget)
    let flex := items.map (fun item =>
      match item with
      | SplitItem.plain _ => (1 : Rat)
      | SplitItem.weighted _ f => f)
    .ok { _content := widgets, impl := { content := widgets, flex := flex } }

/-- `SplitContainer.enabled` getter: `return True`. -/
def enabled (_ : SplitContainerState) : Bool :=
  true

/-- `SplitContainer.enabled` setter: `pass` — no state change, no peer
call. -/
def setEnabled {α : Type} (w : SplitContainerState) (_ : α) :
    SplitContainerState × List String :=
  (w, [])

end SplitContainer

/-- Peer of a `Divider`: holds the state behind `get_direction`. -/
structure DividerImpl where
  direction : Nat
  deriving DecidableEq, Repr

/-- Interface state of a `toga.Divider`; `direction` delegates to the
peer. -/
structure DividerState where
  impl : DividerImpl
  deriving DecidableEq, Repr

namespace Divider

/-- `Divider.direction` getter: `return self._impl.get_direction()`. -/
def direction (w : DividerState) : Nat :=
  w.impl.direction

/-- `Divider.enabled` getter: `return True`. -/
def enabled (_ : DividerState) : Bool :=
  true

/-- `Divider.enabled` setter: `pass` — no state change, no peer call. -/
def setEnabled {α : Type} (w : DividerState) (_ : α) :
    DividerState × List String :=
  (w, [])

end Divider

/-- C1: when the native success callback (`_location_change`) fires with
location `L` while `N` location-request cells are queued, the pending queue
is left empty, the emitted trace settles every one of the `N` queued cells
with the same `LatLng` of `L` (one `setResult` per queued cell, in
pop order), and the standing change listener is invoked exactly once with
that value — for any queue, i.e. for every `N ≥ 0`. -/
theorem location_change_settles_all_and_notifies_once
    (st : GeolocationState) (L : CLLocation) :
    (Geolocation.location_change st L).1.locationRequests = [] ∧
    (Geolocation.location_change st L).2 =
      st.locationRequests.reverse.map (fun f => Event.setResult f (latlngOf L))
        ++ [Event.onChange (latlngOf L) (altitudeOf L)] ∧
    ((Geolocation.location_change st L).2.countP isOnChangeEvent) = 1 := by
  refine ⟨rfl, ?_, ?_⟩
  · simp [Geolocation.location_change, drainPop_eq_reverse_map, latlngOf, altitudeOf]
  · simp [Geolocation.location_change, drainPop_eq_reverse_map,
      List.countP_append, List.countP_cons, List.countP_map, isOnChangeEvent,
      Function.comp]

/-- C4: the native batch callback
(`locationManager_didUpdateLocations_`) uses only the last update of the
batch: for any batch `pre ++ [L]`, the bridge behaves exactly as
`_location_change` applied to `L` alone, so every earlier entry of the
batch is discarded and pending requests and the listener see only `L`. -/
theorem didUpdateLocations_uses_last_only (st : GeolocationState)
    (pre : List CLLocation) (L : CLLocation) :
    Geolocation.locationManager_didUpdateLocations st (pre ++ [L]) =
      some (Geolocation.location_change st L) := by
  simp [Geolocation.locationManager_didUpdateLocations]

/-- C5: when the native failure callback (`_location_error`) fires, the
pending queue is left empty, the emitted trace is exactly one
`setException` per queued cell (each with the message describing the
native error, each cell settled exactly as often as it was queued —
never twice), and the change listener is not invoked. -/
theorem location_error_fails_all_pending (st : GeolocationState) (err : String) :
    (Geolocation.location_error st err).1.locationRequests = [] ∧
    (Geolocation.location_error st err).2 =
      st.locationRequests.reverse.map
        (fun f => Event.setException f ("Unable to obtain a location (" ++ err ++ ")")) ∧
    ((Geolocation.location_error st err).2.countP isOnChangeEvent) = 0 ∧
    (∀ f, ((Geolocation.location_error st err).2.count
        (Event.setException f ("Unable to obtain a location (" ++ err ++ ")")))
        = st.locationRequests.count f) := by
  refine ⟨rfl, ?_, ?_, ?_⟩
  · simp [Geolocation.location_error, drainPop_eq_reverse_map]
  · simp [Geolocation.location_error, drainPop_eq_reverse_map,
      List.countP_map, isOnChangeEvent, Function.comp]
  · intro f
    simp only [Geolocation.location_error, drainPop_eq_reverse_map]
    have hinj : Function.Injective
        (fun future =>
          Event.setException future ("Unable to obtain a location (" ++ err ++ ")")) := by
      intro a b hab
      simpa using hab
    rw [List.count_map_of_injective st.locationRequests.reverse _ hinj f,
      List.count_reverse]

/-- C8: the sample delivered to the change listener by `_location_change`
is the final event of the trace, and its altitude is absent exactly when
the native vertical accuracy is non-positive (so it is present only when
the accuracy is strictly positive), for any coordinate values. -/
theorem altitude_absent_iff_accuracy_nonpositive
    (st : GeolocationState) (L : CLLocation) :
    ((Geolocation.location_change st L).2.getLast? =
      some (Event.onChange (latlngOf L) (altitudeOf L))) ∧
    (altitudeOf L = none ↔ L.verticalAccuracy ≤ 0) := by
  constructor
  · simp [Geolocation.location_change, latlngOf, altitudeOf]
  · by_cases h : L.verticalAccuracy > 0
    · simp [altitudeOf, h, not_le.mpr h]
    · simp [altitudeOf, h, not_lt.mp h]

theorem get_platform_factory_two_or_more (p : Option String) (a c : EntryPoint)
    (t : List EntryPoint) :
    get_platform_factory p (a :: c :: t) =
      match (a :: c :: t).filter (matchesHost p) with
      | [] => Except.error (ResolveError.noneMatch (a :: c :: t) p)
      | [backend] => Except.ok backend
      | ms => Except.error (ResolveError.multipleCandidates ms) := by
  rfl

theorem two_le_length_shape {α : Type} (l : List α) (h : 2 ≤ l.length) :
    ∃ a c t, l = a :: c :: t := by
  cases l with
  | nil => simp at h
  | cons a rest =>
    cases rest with
    | nil => simp at h
    | cons c t => exact ⟨a, c, t, rfl⟩

/-- C2: backend resolution counts the discovered descriptors: zero raises
the fatal no-backend error; exactly one is selected regardless of its
platform tag; with two or more, the descriptors are filtered by the host
platform tag, and then zero matches raises an error carrying all installed
backends, a unique match is selected, and two or more matches raise the
ambiguity error carrying the candidates. -/
theorem get_platform_factory_counting (p : Option String) (b : EntryPoint)
    (bs : List EntryPoint) :
    (get_platform_factory p [] = Except.error ResolveError.noBackend) ∧
    (get_platform_factory p [b] = Except.ok b) ∧
    (2 ≤ bs.length → bs.filter (matchesHost p) = [] →
      get_platform_factory p bs = Except.error (ResolveError.noneMatch bs p)) ∧
    (2 ≤ bs.length → ∀ m, bs.filter (matchesHost p) = [m] →
      get_platform_factory p bs = Except.ok m) ∧
    (2 ≤ bs.length → 2 ≤ (bs.filter (matchesHost p)).length →
      get_platform_factory p bs =
        Except.error (ResolveError.multipleCandidates
          (bs.filter (matchesHost p)))) := by
  refine ⟨rfl, rfl, ?_, ?_, ?_⟩
  · intro hlen hfil
    obtain ⟨a, c, t, rfl⟩ := two_le_length_shape bs hlen
    rw [get_platform_factory_two_or_more, hfil]
  · intro hlen m hfil
    obtain ⟨a, c, t, rfl⟩ := two_le_length_shape bs hlen
    rw [get_platform_factory_two_or_more, hfil]
  · intro hlen hfl
    obtain ⟨a, c, t, rfl⟩ := two_le_length_shape bs hlen
    obtain ⟨x, y, r, hxy⟩ := two_le_length_shape _ hfl
    rw [get_platform_factory_two_or_more, hxy]

/-- Witness for C2 at concrete inputs: two backends both tagged `linux` on
a linux host are ambiguous (the spec scenario), a unique platform match
among two installs is selected, and two installs with no match for the
host error carrying both. -/
theorem get_platform_factory_counting_w :
    (get_platform_factory (some "linux")
        [⟨"linux", "toga_gtk"⟩, ⟨"linux", "toga_qt"⟩]
      = Except.error (ResolveError.multipleCandidates
          [⟨"linux", "toga_gtk"⟩, ⟨"linux", "toga_qt"⟩])) ∧
    (get_platform_factory (some "linux")
        [⟨"linux", "toga_gtk"⟩, ⟨"macOS", "toga_cocoa"⟩]
      = Except.ok ⟨"linux", "toga_gtk"⟩) ∧
    (get_platform_factory (some "windows")
        [⟨"linux", "toga_gtk"⟩, ⟨"macOS", "toga_cocoa"⟩]
      = Except.error (ResolveError.noneMatch
          [⟨"linux", "toga_gtk"⟩, ⟨"macOS", "toga_cocoa"⟩] (some "windows"))) := by
  refine ⟨?_, ?_, ?_⟩
  · exact (get_platform_factory_counting (some "linux") ⟨"linux", "toga_gtk"⟩
      [⟨"linux", "toga_gtk"⟩, ⟨"linux", "toga_qt"⟩]).2.2.2.2 (by decide) (by decide)
  · exact (get_platform_factory_counting (some "linux") ⟨"linux", "toga_gtk"⟩
      [⟨"linux", "toga_gtk"⟩, ⟨"macOS", "toga_cocoa"⟩]).2.2.2.1 (by decide)
      ⟨"linux", "toga_gtk"⟩ (by decide)
  · exact (get_platform_factory_counting (some "windows") ⟨"linux", "toga_gtk"⟩
      [⟨"linux", "toga_gtk"⟩, ⟨"macOS", "toga_cocoa"⟩]).2.2.1 (by decide) (by decide)

/-- C3: for every state in which foreground permission has not been
granted (the strict `has_permission` check fails, i.e. the authorization
state is not a granted one), `Location.request_background_permission`
fails synchronously with the precondition error; in the `Except` model the
error outcome carries no successor state and no events, so nothing is
enqueued and no native authorization call is issued. -/
theorem request_background_permission_requires_foreground
    (st : GeolocationState) (future : Nat)
    (h : Geolocation.has_permission st false = false) :
    Location.request_background_permission st future =
      Except.error
        "Cannot ask for background location permission before confirming foreground location permission." := by
  simp [Location.request_background_permission, h]

/-- Witness for C3: a denied authorization state has no foreground
permission and the background request errors there. -/
theorem request_background_permission_requires_foreground_w :
    Geolocation.has_permission
        ⟨CLAuthorizationStatus.Denied, none, [], []⟩ false = false ∧
    Location.request_background_permission
        ⟨CLAuthorizationStatus.Denied, none, [], []⟩ 0 =
      Except.error
        "Cannot ask for background location permission before confirming foreground location permission." :=
  ⟨by decide,
   request_background_permission_requires_foreground
     ⟨CLAuthorizationStatus.Denied, none, [], []⟩ 0 (by decide)⟩

/-- C6: `current_location` raises the permission error — and, the error
outcome carrying no events, attempts no native call — when permission is
neither undetermined nor granted; with permission and a cached native
location it settles the result cell synchronously with no native event;
with permission and no cached location it enqueues the cell and issues
exactly one native one-shot fetch. -/
theorem current_location_cases (st : GeolocationState) (result : Nat) :
    (Geolocation.has_permission st true = false →
      Geolocation.current_location st result =
        Except.error "App does not have permission to use geolocation services") ∧
    (∀ location, Geolocation.has_permission st true = true →
      st.nativeLocation = some location →
      Geolocation.current_location st result =
        Except.ok (st, [Event.setResult result (latlngOf location)])) ∧
    (Geolocation.has_permission st true = true →
      st.nativeLocation = none →
      Geolocation.current_location st result =
        Except.ok ({ st with locationRequests := st.locationRequests ++ [result] },
          [Event.nativeRequestLocation])) := by
  refine ⟨?_, ?_, ?_⟩
  · intro h
    simp [Geolocation.current_location, h]
  · intro location h hloc
    simp [Geolocation.current_location, h, hloc, latlngOf]
  · intro h hloc
    simp [Geolocation.current_location, h, hloc]

/-- Witness for C6: denied permission errors; granted permission with a
cached native location settles synchronously; undetermined permission with
no cache enqueues and fetches once. -/
theorem current_location_cases_w :
    (Geolocation.current_location ⟨CLAuthorizationStatus.Denied, none, [], []⟩ 0 =
      Except.error "App does not have permission to use geolocation services") ∧
    (Geolocation.current_location
        ⟨CLAuthorizationStatus.AuthorizedWhenInUse, some ⟨⟨37, 42⟩, 1, 5⟩, [], []⟩ 1 =
      Except.ok
        (⟨CLAuthorizationStatus.AuthorizedWhenInUse, some ⟨⟨37, 42⟩, 1, 5⟩, [], []⟩,
         [Event.setResult 1 ⟨37, 42⟩])) ∧
    (Geolocation.current_location ⟨CLAuthorizationStatus.NotDetermined, none, [], []⟩ 2 =
      Except.ok (⟨CLAuthorizationStatus.NotDetermined, none, [2], []⟩,
        [Event.nativeRequestLocation])) := by
  refine ⟨?_, ?_, ?_⟩
  · exact (current_location_cases ⟨CLAuthorizationStatus.Denied, none, [], []⟩ 0).1
      (by decide)
  · exact (current_location_cases
      ⟨CLAuthorizationStatus.AuthorizedWhenInUse, some ⟨⟨37, 42⟩, 1, 5⟩, [], []⟩ 1).2.1
      ⟨⟨37, 42⟩, 1, 5⟩ (by decide) rfl
  · exact (current_location_cases
      ⟨CLAuthorizationStatus.NotDetermined, none, [], []⟩ 2).2.2 (by decide) rfl

/-- C7 counterexample: in a state where permission has been denied and
tracking was never started, `Geolocation.stop` raises the permission error
instead of being a silent no-op — refuting "`stop_tracking()` never
raises, for every prior call history". This matches the repository testbed
test that expects a `PermissionError` from `stop_tracking()` when
permission is denied. -/
theorem stop_raises_without_permission_cex :
    Geolocation.stop ⟨CLAuthorizationStatus.Denied, none, [], []⟩ =
      Except.error "App does not have permission to use geolocation services" := by
  rfl

/-- C7 amended: while permission is granted or undetermined, `stop` never
raises — calling it without a prior start (or when already stopped) is a
silent no-op that merely forwards `stopUpdatingLocation` to the native
manager — but when permission has been denied (or restricted), `stop`
raises the permission error even though tracking was never started. -/
theorem stop_spec (st : GeolocationState) :
    (Geolocation.has_permission st true = true →
      Geolocation.stop st = Except.ok (st, [Event.nativeStopUpdatingLocation])) ∧
    (Geolocation.has_permission st true = false →
      Geolocation.stop st =
        Except.error "App does not have permission to use geolocation services") := by
  constructor <;> intro h <;> simp [Geolocation.stop, h]

/-- Witness for C7: undetermined permission makes `stop` a no-op even
though nothing was started; restricted permission makes it raise. -/
theorem stop_spec_w :
    (Geolocation.stop ⟨CLAuthorizationStatus.NotDetermined, none, [], []⟩ =
      Except.ok (⟨CLAuthorizationStatus.NotDetermined, none, [], []⟩,
        [Event.nativeStopUpdatingLocation])) ∧
    (Geolocation.stop ⟨CLAuthorizationStatus.Restricted, none, [], []⟩ =
      Except.error "App does not have permission to use geolocation services") :=
  ⟨(stop_spec ⟨CLAuthorizationStatus.NotDetermined, none, [], []⟩).1 (by decide),
   (stop_spec ⟨CLAuthorizationStatus.Restricted, none, [], []⟩).2 (by decide)⟩

/-- C9 counterexample: two `DetailedList` states with identical native
peers on which the `data` getter disagrees — so `DetailedList.data` reads
the interface attribute `_data` and not the peer, refuting "every
application-facing property getter reads its value from the native
peer". -/
theorem detailedlist_data_reads_interface_cache_cex :
    (DetailedListState.mk ["a"] ⟨none⟩).impl
      = (DetailedListState.mk ["b"] ⟨none⟩).impl ∧
    DetailedList.data (DetailedListState.mk ["a"] ⟨none⟩) ≠
      DetailedList.data (DetailedListState.mk ["b"] ⟨none⟩) :=
  ⟨rfl, by decide⟩

/-- C9 amended: getters in the interface/impl pattern split in two groups:
`Slider.value`, `Slider.range` and `Divider.direction` read from the
native peer at call time (their result is a function of the peer state
alone), while `DetailedList.data` and `SplitContainer.content` return the
value cached on the interface object (their result is a function of the
interface attribute alone, ignoring the peer). -/
theorem getters_peer_or_interface_cache (s t : SliderState)
    (d e : DetailedListState) (c c2 : SplitContainerState)
    (v v2 : DividerState) :
    (s.impl = t.impl → Slider.value s = Slider.value t) ∧
    (s.impl = t.impl → Slider.range s = Slider.range t) ∧
    (v.impl = v2.impl → Divider.direction v = Divider.direction v2) ∧
    (d._data = e._data → DetailedList.data d = DetailedList.data e) ∧
    (c._content = c2._content →
      SplitContainer.content c = SplitContainer.content c2) := by
  refine ⟨?_, ?_, ?_, ?_, ?_⟩ <;> intro h <;>
    simp [Slider.value, Slider.range, Divider.direction, DetailedList.data,
      SplitContainer.content, h]

/-- Witness for C9 amended: concrete states — equal peers give equal
`Slider.value`; `DetailedList.data` and `SplitContainer.content` agree
across different peers when the interface caches agree. -/
theorem getters_peer_or_interface_cache_w :
    (Slider.value ⟨⟨5, (0, 10), none⟩⟩ = Slider.value ⟨⟨5, (0, 10), none⟩⟩) ∧
    (DetailedList.data ⟨["x"], ⟨none⟩⟩ = DetailedList.data ⟨["x"], ⟨some ["y"]⟩⟩) ∧
    (SplitContainer.content ⟨[some 1, none], ⟨[], []⟩⟩ =
      SplitContainer.content ⟨[some 1, none], ⟨[some 1, none], [1, 1]⟩⟩) :=
  ⟨(getters_peer_or_interface_cache ⟨⟨5, (0, 10), none⟩⟩ ⟨⟨5, (0, 10), none⟩⟩
      ⟨["x"], ⟨none⟩⟩ ⟨["x"], ⟨some ["y"]⟩⟩ ⟨[some 1, none], ⟨[], []⟩⟩
      ⟨[some 1, none], ⟨[some 1, none], [1, 1]⟩⟩ ⟨⟨0⟩⟩ ⟨⟨0⟩⟩).1 rfl,
   (getters_peer_or_interface_cache ⟨⟨5, (0, 10), none⟩⟩ ⟨⟨5, (0, 10), none⟩⟩
      ⟨["x"], ⟨none⟩⟩ ⟨["x"], ⟨some ["y"]⟩⟩ ⟨[some 1, none], ⟨[], []⟩⟩
      ⟨[some 1, none], ⟨[some 1, none], [1, 1]⟩⟩ ⟨⟨0⟩⟩ ⟨⟨0⟩⟩).2.2.2.1 rfl,
   (getters_peer_or_interface_cache ⟨⟨5, (0, 10), none⟩⟩ ⟨⟨5, (0, 10), none⟩⟩
      ⟨["x"], ⟨none⟩⟩ ⟨["x"], ⟨some ["y"]⟩⟩ ⟨[some 1, none], ⟨[], []⟩⟩
      ⟨[some 1, none], ⟨[some 1, none], [1, 1]⟩⟩ ⟨⟨0⟩⟩ ⟨⟨0⟩⟩).2.2.2.2 rfl⟩

/-- C10: for `Divider`, `DetailedList` and `SplitContainer`, the `enabled`
getter always returns `True`, and assigning any value of any type to
`enabled` leaves the widget state (interface attributes and peer alike)
unchanged and issues no peer call. -/
theorem enabled_always_true_and_setter_noop {α β γ : Type}
    (d : DividerState) (l : DetailedListState) (s : SplitContainerState)
    (x : α) (y : β) (z : γ) :
    Divider.enabled d = true ∧ Divider.setEnabled d x = (d, []) ∧
    DetailedList.enabled l = true ∧ DetailedList.setEnabled l y = (l, []) ∧
    SplitContainer.enabled s = true ∧ SplitContainer.setEnabled s z = (s, []) :=
  ⟨rfl, rfl, rfl, rfl, rfl, rfl⟩
